import Mathlib

/-!
Shallow embedding of `mapper.py` (ControllerKeyboardMapper): the key
serialization helpers, the profile document model, the per-cycle controller
frame computation, the exit-combo detector, and the mapper runtime loop of
`MapperRuntime._run`, together with theorems settling the specification
claims about them.

Python floats are modelled as rationals; Python dicts holding the profile
document are modelled as functions `String → Option JVal`.
-/

namespace CKM

/-- A JSON value as it occurs in a persisted profile document: every field of
`DEFAULT_PROFILE` is a string or a float. -/
inductive JVal where
  | str (s : String)
  | num (q : ℚ)
deriving DecidableEq, Repr

/-- A physical key, mirroring the three pynput shapes that `key_to_str` and
`str_to_key` distinguish: a named non-printable key (`keyboard.Key.<name>`),
a `KeyCode` built from a virtual key code (`KeyCode.from_vk`), and a `KeyCode`
built from a character (`KeyCode.from_char`; pynput accepts any string there).
Virtual key codes are nonnegative integers. Equality is structural. -/
inductive PKey where
  | named (n : String)
  | vk (n : ℕ)
  | ch (s : String)
deriving DecidableEq, Repr

/-- The attribute names of pynput's `keyboard.Key` enumeration:
`getattr(keyboard.Key, name)` in `str_to_key` succeeds exactly on these
(raising, hence yielding `None`, otherwise). -/
def validKeyNames : List String :=
  ["alt", "alt_l", "alt_r", "alt_gr", "backspace", "caps_lock",
   "cmd", "cmd_l", "cmd_r", "ctrl", "ctrl_l", "ctrl_r", "delete",
   "down", "end", "enter", "esc",
   "f1", "f2", "f3", "f4", "f5", "f6", "f7", "f8", "f9", "f10",
   "f11", "f12", "f13", "f14", "f15", "f16", "f17", "f18", "f19", "f20",
   "home", "insert", "left", "media_next", "media_play_pause",
   "media_previous", "media_volume_down", "media_volume_mute",
   "media_volume_up", "menu", "num_lock", "page_down", "page_up", "pause",
   "print_screen", "right", "scroll_lock", "shift", "shift_l", "shift_r",
   "space", "tab", "up"]

/-- Decimal digit characters to their value; any other character is rejected.
Models which characters Python's `int(...)` accepts in a plain decimal
numeral. -/
def charDigit (c : Char) : Option ℕ :=
  if '0' ≤ c ∧ c ≤ '9' then some (c.toNat - '0'.toNat) else none

/-- Accumulating decimal parse of a digit list. -/
def digitsToNatAux : ℕ → List Char → Option ℕ
  | acc, [] => some acc
  | acc, c :: cs =>
    match charDigit c with
    | some d => digitsToNatAux (acc * 10 + d) cs
    | none => none

/-- `int(s)` on a plain nonempty decimal numeral, as used by `str_to_key` on
the payload of a `VK:` tag (Python's `int` raises on anything else, which
`str_to_key` turns into `None`). -/
def parseNat : List Char → Option ℕ
  | [] => none
  | c :: cs => digitsToNatAux 0 (c :: cs)

/-- Decimal digits of `n` (most significant first), with explicit fuel;
`fuel > n` suffices. Models Python's `str(int)` / f-string formatting of a
nonnegative integer. -/
def natToDigitsCore : ℕ → ℕ → List Char
  | 0, _ => []
  | fuel + 1, n =>
    if n < 10 then [Char.ofNat (n + '0'.toNat)]
    else natToDigitsCore fuel (n / 10) ++ [Char.ofNat (n % 10 + '0'.toNat)]

/-- Python's decimal rendering of a nonnegative integer. -/
def natRepr (n : ℕ) : String :=
  String.mk (natToDigitsCore (n + 1) n)

/-- Split a character list at its first colon: `some (before, after)` when a
colon occurs, `none` otherwise. This is `s.split(":", 1)` together with the
prefix tests of `str_to_key`: `s.startswith(tag + ":")` holds iff the part
before the first colon equals `tag`. -/
def splitFirstColon : List Char → Option (List Char × List Char)
  | [] => none
  | c :: cs =>
    if c = ':' then some ([], cs)
    else
      match splitFirstColon cs with
      | some (a, b) => some (c :: a, b)
      | none => none

/-- `key_to_str`: serialize an optional key to its tagged string ( `""` for
`None`). A `KeyCode` carrying a virtual key code serializes as `VK:` (checked
before `char` in the source). -/
def keyToStr : Option PKey → String
  | none => ""
  | some (PKey.named n) => "KEY:" ++ n
  | some (PKey.vk n) => "VK:" ++ natRepr n
  | some (PKey.ch s) => "CHAR:" ++ s

/-- `str_to_key`: parse a tagged string back to an optional key. Empty or
untagged strings, unknown `KEY:` names and unparseable `VK:` payloads all
yield `none` (the source catches the exception and returns `None`). -/
def strToKey (s : String) : Option PKey :=
  if s = "" then none
  else
    match splitFirstColon s.data with
    | some (tag, rest) =>
      if tag = "KEY".data then
        if validKeyNames.contains (String.mk rest) then
          some (PKey.named (String.mk rest))
        else none
      else if tag = "VK".data then
        match parseNat rest with
        | some n => some (PKey.vk n)
        | none => none
      else if tag = "CHAR".data then some (PKey.ch (String.mk rest))
      else none
    | none => none

/-- `str_to_key` applied to a raw profile-document value: on a non-string
value, `"if not s"` either returns `None` (falsy value) or the `startswith`
call raises and the handler returns `None`; either way the result is `none`. -/
def strToKeyV : JVal → Option PKey
  | JVal.str s => strToKey s
  | JVal.num _ => none

/-- `is_pressed`: membership of an optional key in the pressed set; `None`
is never pressed. -/
def isPressed (pressed : List PKey) : Option PKey → Bool
  | none => false
  | some k => pressed.contains k

/-- Truncation toward zero, the semantics of Python's `int()` applied to a
float. -/
def truncQ (q : ℚ) : ℤ :=
  if 0 ≤ q then ⌊q⌋ else ⌈q⌉

/-- `MapperRuntime._axis_short`: clamp to `[-1, 1]`, scale by `32767`,
truncate to an integer. -/
def axisShort (v : ℚ) : ℤ :=
  truncQ (max (-1) (min 1 v) * 32767)

/-- Python's builtin `round` (round half to even), the operation the
specification's axis formula `round(clamped * max_magnitude)` names. This
definition follows the spec's words; the source uses `int` (truncation)
instead. -/
def pyRound (q : ℚ) : ℤ :=
  if q - ⌊q⌋ < 1/2 then ⌊q⌋
  else if 1/2 < q - ⌊q⌋ then ⌊q⌋ + 1
  else if 2 ∣ ⌊q⌋ then ⌊q⌋ else ⌊q⌋ + 1

/-! ## Profile documents

A profile lives in `MapperUI.self.profile`, a Python dict from field names to
strings and floats, modelled as a function `String → Option JVal` (`none` =
key absent from the dict). -/

/-- A profile document (a Python dict of JSON-serializable values). -/
def PDoc := String → Option JVal

/-- The `XBTN` dict's keys: the 14 digital button controls, in source
order. -/
def xbtnNames : List String :=
  ["A", "B", "X", "Y", "LB", "RB", "BACK", "START", "LS_CLICK", "RS_CLICK",
   "DPAD_UP", "DPAD_DOWN", "DPAD_LEFT", "DPAD_RIGHT"]

/-- `DEFAULT_PROFILE` as the association list of its dict literal, in source
order. -/
def defaultPairs : List (String × JVal) :=
  (xbtnNames.map (fun n => (n, JVal.str ""))) ++
  [("LEFT_STICK_UP", JVal.str ""), ("LEFT_STICK_DOWN", JVal.str ""),
   ("LEFT_STICK_LEFT", JVal.str ""), ("LEFT_STICK_RIGHT", JVal.str ""),
   ("RIGHT_STICK_UP", JVal.str ""), ("RIGHT_STICK_DOWN", JVal.str ""),
   ("RIGHT_STICK_LEFT", JVal.str ""), ("RIGHT_STICK_RIGHT", JVal.str ""),
   ("LT", JVal.str ""), ("RT", JVal.str ""),
   ("EXIT_KEY_1", JVal.str "KEY:esc"),
   ("EXIT_KEY_2", JVal.str "KEY:backspace"),
   ("EXIT_HOLD_SEC", JVal.num (3/10)),
   ("STICK_MAGNITUDE", JVal.num 1)]

/-- The closed set of known control/setting field names (the keys of
`DEFAULT_PROFILE`). -/
def knownFields : List String := defaultPairs.map Prod.fst

/-- `DEFAULT_PROFILE` as a document. -/
def defaultPDoc : PDoc := fun k => defaultPairs.lookup k

/-- `dict.get(name, d)`. -/
def dGet (p : PDoc) (name : String) (d : JVal) : JVal :=
  (p name).getD d

/-- `float(profile.get(name, d))` for the numeric settings fields
(`STICK_MAGNITUDE`, `EXIT_HOLD_SEC`). On a well-typed document the field is
absent or a JSON number; a string value (where Python's `float` would parse
or raise) is outside the modelled documents and falls back to the default. -/
def dGetNum (p : PDoc) (name : String) (d : ℚ) : ℚ :=
  match p name with
  | some (JVal.num q) => q
  | _ => d

/-- `str_to_key(profile.get(name, ""))`, the key bound to a control field. -/
def fieldKey (p : PDoc) (name : String) : Option PKey :=
  strToKeyV (dGet p name (JVal.str ""))

/-- `json.dump(self.profile, f)` in `MapperUI.save_profile` writes every
entry of the in-memory dict, so the persisted document is the dict itself. -/
def saveDoc (p : PDoc) : PDoc := p

/-- `self.profile.update(data)` in `MapperUI.load_profile`: every field of
the loaded document overrides the in-memory one; fields absent from the
loaded document keep their current value. -/
def loadProfile (cur data : PDoc) : PDoc := fun k =>
  match data k with
  | some v => some v
  | none => cur k

/-! ## Per-cycle controller frame (lines 164-201 of `_run`) -/

/-- Python's implicit bool-to-int coercion in the stick expressions
`is_pressed(...) - is_pressed(...)`. -/
def b2i (b : Bool) : ℤ := if b then 1 else 0

/-- The controller state pushed to the device in one cycle: the two stick
vectors, both trigger levels, and the state of the 14 digital buttons. -/
structure Frame where
  lx : ℤ
  ly : ℤ
  rx : ℤ
  ry : ℤ
  lt : ℕ
  rt : ℕ
  buttons : List (String × Bool)
deriving DecidableEq, Repr

/-- The compute/apply step of one cycle of `MapperRuntime._run`: clamp the
stick magnitude to `[0, 1]`, derive each stick axis from its two direction
keys, convert via `_axis_short`, read the triggers as full-or-nothing, and
read each digital button. -/
def computeFrame (pressed : List PKey) (p : PDoc) : Frame :=
  let mag := max 0 (min 1 (dGetNum p "STICK_MAGNITUDE" 1))
  let lxr := b2i (isPressed pressed (fieldKey p "LEFT_STICK_RIGHT")) -
             b2i (isPressed pressed (fieldKey p "LEFT_STICK_LEFT"))
  let lyr := b2i (isPressed pressed (fieldKey p "LEFT_STICK_UP")) -
             b2i (isPressed pressed (fieldKey p "LEFT_STICK_DOWN"))
  let rxr := b2i (isPressed pressed (fieldKey p "RIGHT_STICK_RIGHT")) -
             b2i (isPressed pressed (fieldKey p "RIGHT_STICK_LEFT"))
  let ryr := b2i (isPressed pressed (fieldKey p "RIGHT_STICK_UP")) -
             b2i (isPressed pressed (fieldKey p "RIGHT_STICK_DOWN"))
  { lx := axisShort ((lxr : ℚ) * mag)
    ly := axisShort ((lyr : ℚ) * mag)
    rx := axisShort ((rxr : ℚ) * mag)
    ry := axisShort ((ryr : ℚ) * mag)
    lt := if isPressed pressed (fieldKey p "LT") then 255 else 0
    rt := if isPressed pressed (fieldKey p "RT") then 255 else 0
    buttons := xbtnNames.map (fun n => (n, isPressed pressed (fieldKey p n))) }

/-! ## Exit-combo detector (lines 150-162 of `_run`) -/

/-- One evaluation of the exit-combo block: `st` is `exit_hold_start`,
`both` says whether both exit keys are currently pressed, `now` is
`time.time()`. Returns the new `exit_hold_start` and whether the combo
triggered (the `break`). While both keys are down the timer is set on the
first cycle (`exit_hold_start is None`) and only compared on later cycles;
on any cycle where either key is up the timer resets to `None`. -/
def exitStep (holdSec : ℚ) (st : Option ℚ) (both : Bool) (now : ℚ) :
    Option ℚ × Bool :=
  if both then
    match st with
    | none => (some now, false)
    | some s => if holdSec ≤ now - s then (some s, true) else (some s, false)
  else (none, false)

/-- The exit detector run over a sequence of cycles, each given as
`(time, both exit keys down)`: `true` iff the combo triggers on some
cycle. -/
def exitRunAux (holdSec : ℚ) : Option ℚ → List (ℚ × Bool) → Bool
  | _, [] => false
  | st, (t, b) :: rest =>
    let sb := exitStep holdSec st b t
    if sb.2 then true else exitRunAux holdSec sb.1 rest

/-- The exit detector started fresh (as at the top of `_run`, where
`exit_hold_start = None`). -/
def exitRun (holdSec : ℚ) (cycles : List (ℚ × Bool)) : Bool :=
  exitRunAux holdSec none cycles

/-- Every cycle of the leading continuously-held run is within `holdSec` of
the hold's start time `s` (the bound stops at the first cycle where a key is
up). -/
def boundedFrom (holdSec s : ℚ) : List (ℚ × Bool) → Bool
  | [] => true
  | (t, b) :: rest =>
    if b then decide (t - s < holdSec) && boundedFrom holdSec s rest
    else true

mutual

/-- Every continuous simultaneous hold of both exit keys in the cycle
sequence lasts strictly less than `holdSec`, measured from the first cycle
of the hold. -/
def shortHolds (holdSec : ℚ) : List (ℚ × Bool) → Bool
  | [] => true
  | (t, b) :: rest =>
    if b then boundedFrom holdSec t rest && shortHoldsAfterRun holdSec rest
    else shortHolds holdSec rest

/-- `shortHolds` after skipping the remainder of the current hold. -/
def shortHoldsAfterRun (holdSec : ℚ) : List (ℚ × Bool) → Bool
  | [] => true
  | (_, b) :: rest =>
    if b then shortHoldsAfterRun holdSec rest
    else shortHolds holdSec rest

end

/-! ## The mapper loop (`MapperRuntime._run`) -/

/-- The environment one cycle of the loop runs in: whether `self._stop` was
set when the `while` condition was tested, the profile returned by
`self.get_profile()`, the pressed-key set, the cycle's wall-clock time, and
whether some device call of the compute/apply step raises (carrying the
exception text). -/
structure CycleEnv where
  stopSet : Bool
  profile : PDoc
  pressed : List PKey
  now : ℚ
  writeError : Option String

/-- Externally observable events of a run: status reports through
`set_status`, a frame applied to the device (the writes plus
`gamepad.update()`), and the cleanup `gamepad.reset()`. -/
inductive Event where
  | status (s : String)
  | applyFrame (f : Frame)
  | resetDevice
deriving DecidableEq, Repr

/-- How the loop left (or failed to leave within the supplied cycles). -/
inductive Outcome where
  | initFailed
  | stopped
  | exited
  | crashed (msg : String)
  | running
deriving DecidableEq, Repr

/-- The `while not self._stop.is_set()` loop of `_run`, driven by one
`CycleEnv` per iteration. Per cycle: fetch the profile, evaluate the
exit-combo block (a trigger `break`s into the cleanup path), then perform
the compute/apply step — which, having no exception handler around it,
terminates the whole loop with no cleanup and no status report if a device
call raises. Exhausting the list while the loop would continue yields
`Outcome.running`. -/
def runLoop : Option ℚ → List CycleEnv → List Event × Outcome
  | _, [] => ([], Outcome.running)
  | st, c :: rest =>
    if c.stopSet then
      ([Event.resetDevice, Event.status "Mapper STOPPED"], Outcome.stopped)
    else
      let p := c.profile
      let e1 := strToKeyV (dGet p "EXIT_KEY_1" (JVal.str "KEY:esc"))
      let e2 := strToKeyV (dGet p "EXIT_KEY_2" (JVal.str "KEY:backspace"))
      let holdSec := dGetNum p "EXIT_HOLD_SEC" (3/10)
      let both := isPressed c.pressed e1 && isPressed c.pressed e2
      let sb := exitStep holdSec st both c.now
      if sb.2 then
        ([Event.status "Exit combo triggered", Event.resetDevice,
          Event.status "Mapper STOPPED"], Outcome.exited)
      else
        match c.writeError with
        | some msg => ([], Outcome.crashed msg)
        | none =>
          let f := computeFrame c.pressed p
          let eo := runLoop sb.1 rest
          (Event.applyFrame f :: eo.1, eo.2)

/-- `MapperRuntime._run`: try to create the virtual gamepad (`initError`
carries the exception text when `vg.VX360Gamepad()` raises) — on failure
report it and return at once; on success report `Mapper RUNNING` and enter
the polling loop with `exit_hold_start = None`. -/
def run (initError : Option String) (cycles : List CycleEnv) :
    List Event × Outcome :=
  match initError with
  | some e =>
    ([Event.status ("Gamepad init failed: " ++ e)], Outcome.initFailed)
  | none =>
    let eo := runLoop none cycles
    (Event.status "Mapper RUNNING" :: eo.1, eo.2)

/-! ## Helper lemmas: decimal printing and parsing -/

theorem charDigit_ofDigit (d : ℕ) (h : d < 10) :
    charDigit (Char.ofNat (d + '0'.toNat)) = some d := by
  interval_cases d <;> decide

theorem digitsToNatAux_append (l1 : List Char) :
    ∀ (acc : ℕ) (l2 : List Char),
      digitsToNatAux acc (l1 ++ l2) =
        (digitsToNatAux acc l1).bind (fun a => digitsToNatAux a l2) := by
  induction l1 with
  | nil => intro acc l2; rfl
  | cons c cs ih =>
    intro acc l2
    simp only [List.cons_append, digitsToNatAux]
    cases charDigit c with
    | some d => simpa using ih (acc * 10 + d) l2
    | none => rfl

theorem natToDigitsCore_parse (fuel : ℕ) :
    ∀ (n acc : ℕ), n < fuel →
      digitsToNatAux acc (natToDigitsCore fuel n) =
        some (acc * 10 ^ (natToDigitsCore fuel n).length + n) := by
  induction fuel with
  | zero => intro n acc h; omega
  | succ f ih =>
    intro n acc h
    by_cases h10 : n < 10
    · simp only [natToDigitsCore, if_pos h10, digitsToNatAux,
        charDigit_ofDigit n h10, List.length_singleton]
      norm_num
    · have hdiv : n / 10 < f :=
        lt_of_lt_of_le (Nat.div_lt_self (by omega) (by omega)) (by omega)
      simp only [natToDigitsCore, if_neg h10, digitsToNatAux_append,
        ih (n / 10) acc hdiv, Option.some_bind, digitsToNatAux,
        charDigit_ofDigit (n % 10) (Nat.mod_lt n (by omega)),
        List.length_append, List.length_singleton]
      congr 1
      have key : forall L : Nat, (acc * 10 ^ L + n / 10) * 10 + n % 10 =
          acc * 10 ^ (L + 1) + n := by
        intro L
        have hmod : 10 * (n / 10) + n % 10 = n := Nat.div_add_mod n 10
        calc (acc * 10 ^ L + n / 10) * 10 + n % 10
            = acc * (10 ^ L * 10) + (10 * (n / 10) + n % 10) := by ring
          _ = acc * (10 ^ L * 10) + n := by rw [hmod]
          _ = acc * 10 ^ (L + 1) + n := by rw [pow_succ]
      exact key _

theorem natToDigitsCore_ne_nil (fuel n : ℕ) (h : n < fuel) :
    natToDigitsCore fuel n ≠ [] := by
  cases fuel with
  | zero => omega
  | succ f =>
    by_cases h10 : n < 10
    · simp [natToDigitsCore, if_pos h10]
    · simp [natToDigitsCore, if_neg h10]

theorem parseNat_natRepr (n : ℕ) : parseNat (natRepr n).data = some n := by
  have hne : natToDigitsCore (n + 1) n ≠ [] :=
    natToDigitsCore_ne_nil (n + 1) n (by omega)
  have heval : digitsToNatAux 0 (natToDigitsCore (n + 1) n) =
      some (0 * 10 ^ (natToDigitsCore (n + 1) n).length + n) :=
    natToDigitsCore_parse (n + 1) n 0 (by omega)
  have hdata : (natRepr n).data = natToDigitsCore (n + 1) n := rfl
  rw [hdata]
  cases hl : natToDigitsCore (n + 1) n with
  | nil => exact absurd hl hne
  | cons c cs =>
    rw [hl] at heval
    simpa [parseNat] using heval

/-! ## Helper lemmas: tagged string round trips -/

theorem string_mk_data (s : String) : String.mk s.data = s := by
  cases s
  rfl

theorem append_ne_empty (hd : Char) (tl : List Char) (t : String)
    (h : (String.mk (hd :: tl) ++ t) = "") : False := by
  have hdata := congrArg String.data h
  rw [String.data_append] at hdata
  simp at hdata

theorem splitFirstColon_key (l : List Char) :
    splitFirstColon ('K' :: 'E' :: 'Y' :: ':' :: l) = some ("KEY".data, l) := by
  simp [splitFirstColon]

theorem splitFirstColon_vk (l : List Char) :
    splitFirstColon ('V' :: 'K' :: ':' :: l) = some ("VK".data, l) := by
  simp [splitFirstColon]

theorem splitFirstColon_char (l : List Char) :
    splitFirstColon ('C' :: 'H' :: 'A' :: 'R' :: ':' :: l) =
      some ("CHAR".data, l) := by
  simp [splitFirstColon]

theorem strToKey_key (n : String) (h : validKeyNames.contains n = true) :
    strToKey ("KEY:" ++ n) = some (PKey.named n) := by
  have hdata : ("KEY:" ++ n).data = 'K' :: 'E' :: 'Y' :: ':' :: n.data := by
    rw [String.data_append]; rfl
  unfold strToKey
  rw [if_neg (fun hc => append_ne_empty 'K' ['E', 'Y', ':'] n hc), hdata,
    splitFirstColon_key]
  simp [string_mk_data]
  simpa using h

theorem strToKey_vk (m : ℕ) :
    strToKey ("VK:" ++ natRepr m) = some (PKey.vk m) := by
  have hdata : ("VK:" ++ natRepr m).data = 'V' :: 'K' :: ':' :: (natRepr m).data := by
    rw [String.data_append]; rfl
  unfold strToKey
  rw [if_neg (fun hc => append_ne_empty 'V' ['K', ':'] (natRepr m) hc), hdata,
    splitFirstColon_vk]
  simp [parseNat_natRepr m]

theorem strToKey_char (s : String) :
    strToKey ("CHAR:" ++ s) = some (PKey.ch s) := by
  have hdata : ("CHAR:" ++ s).data = 'C' :: 'H' :: 'A' :: 'R' :: ':' :: s.data := by
    rw [String.data_append]; rfl
  unfold strToKey
  rw [if_neg (fun hc => append_ne_empty 'C' ['H', 'A', 'R', ':'] s hc), hdata,
    splitFirstColon_char]
  simp [string_mk_data]

/-! ## Helper lemmas: the exit detector -/

/-- Core invariant of the exit detector: started in any state whose recorded
hold start bounds the leading hold, a cycle sequence all of whose continuous
holds are shorter than the threshold never triggers the combo. -/
theorem exitRunAux_of_shortHolds (holdSec : ℚ) (cycles : List (ℚ × Bool)) :
    (shortHolds holdSec cycles = true → exitRunAux holdSec none cycles = false) ∧
    (∀ s : ℚ, boundedFrom holdSec s cycles = true →
      shortHoldsAfterRun holdSec cycles = true →
      exitRunAux holdSec (some s) cycles = false) := by
  induction cycles with
  | nil => exact ⟨fun _ => rfl, fun _ _ _ => rfl⟩
  | cons tb rest ih =>
    obtain ⟨t, b⟩ := tb
    constructor
    · intro hsh
      cases b with
      | false =>
        have hrest : shortHolds holdSec rest = true := by
          simpa [shortHolds] using hsh
        simpa [exitRunAux, exitStep] using ih.1 hrest
      | true =>
        have hsh2 : boundedFrom holdSec t rest = true ∧
            shortHoldsAfterRun holdSec rest = true := by
          simpa [shortHolds, Bool.and_eq_true] using hsh
        simpa [exitRunAux, exitStep] using ih.2 t hsh2.1 hsh2.2
    · intro s hb ha
      cases b with
      | false =>
        have hrest : shortHolds holdSec rest = true := by
          simpa [shortHoldsAfterRun] using ha
        simpa [exitRunAux, exitStep] using ih.1 hrest
      | true =>
        have hb2 : t - s < holdSec ∧ boundedFrom holdSec s rest = true := by
          simpa [boundedFrom, Bool.and_eq_true, decide_eq_true_eq] using hb
        have ha2 : shortHoldsAfterRun holdSec rest = true := by
          simpa [shortHoldsAfterRun] using ha
        have hlt : ¬ holdSec ≤ t - s := not_le.mpr hb2.1
        simpa [exitRunAux, exitStep, hlt] using ih.2 s hb2.2 ha2

/-! ## Claim C5 -/

/-- C5: if both configured exit keys are held simultaneously only for
continuous stretches each strictly shorter than `exit_hold_seconds`, the
exit detector never signals exit over the whole run. -/
theorem short_hold_never_exits (holdSec : ℚ) (cycles : List (ℚ × Bool))
    (h : shortHolds holdSec cycles = true) : exitRun holdSec cycles = false :=
  (exitRunAux_of_shortHolds holdSec cycles).1 h

/-- Witness for C5 at `exit_hold_seconds = 3/10` with both keys held at times
0 and 1/5 only (a continuous hold of 1/5 < 3/10, then a release). -/
theorem short_hold_never_exits_witness :
    shortHolds (3/10) [(0, true), (1/5, true), (2/5, false)] = true ∧
      exitRun (3/10) [(0, true), (1/5, true), (2/5, false)] = false := by
  have h : shortHolds (3/10) [(0, true), (1/5, true), (2/5, false)] = true := by
    simp only [shortHolds, shortHoldsAfterRun, boundedFrom, if_true,
      Bool.and_eq_true, decide_eq_true_eq]
    norm_num
  exact ⟨h, short_hold_never_exits (3/10) [(0, true), (1/5, true), (2/5, false)] h⟩

/-! ## Claim C4 -/

/-- C4: whenever either exit key is not down on a cycle, the detector
transitions to Idle unconditionally — the hold timer resets fully to `None`
(first two conjuncts: the step yields state `none` from any state, and the
remaining run behaves exactly as a freshly started detector, keeping no
partial credit) — so a subsequent re-hold must again satisfy the full
threshold before exit can be signalled (third conjunct: if every later
continuous re-hold stays below `exit_hold_seconds`, no exit is ever
signalled, regardless of how long the combo had been held before the
release). -/
theorem exit_release_resets_fully (holdSec now : ℚ) (st : Option ℚ)
    (rest : List (ℚ × Bool)) :
    exitStep holdSec st false now = (none, false) ∧
    exitRunAux holdSec st ((now, false) :: rest) = exitRunAux holdSec none rest ∧
    (shortHolds holdSec rest = true →
      exitRunAux holdSec st ((now, false) :: rest) = false) := by
  refine ⟨rfl, rfl, fun h => ?_⟩
  exact (exitRunAux_of_shortHolds holdSec rest).1 h

/-- Witness for C4: the detector has been holding since time 0 with a 3/10 s
threshold; at time 5 a key is released, and the subsequent re-hold at times
51/10 and 52/10 (short of the threshold, though far beyond it when measured
from the old start) signals nothing. -/
theorem exit_release_resets_fully_witness :
    shortHolds (3/10) [(51/10, true), (52/10, true)] = true ∧
      exitRunAux (3/10) (some 0) ((5, false) :: [(51/10, true), (52/10, true)]) =
        false := by
  have h : shortHolds (3/10) [(51/10, true), (52/10, true)] = true := by
    simp only [shortHolds, shortHoldsAfterRun, boundedFrom, if_true,
      Bool.and_eq_true, decide_eq_true_eq]
    norm_num
  exact ⟨h,
    (exit_release_resets_fully (3/10) 5 (some 0) [(51/10, true), (52/10, true)]).2.2 h⟩

/-! ## Claim C10 -/

/-- C10: `_axis_short` clamps its input to `[-1, 1]` before scaling (last
conjunct: the result on any input equals the result on the clamped input),
and its result is always an integer in `[-32767, 32767]` — in particular the
device's stated minimum `-32768` is never produced. -/
theorem axis_short_range (v : ℚ) :
    (-32767 ≤ axisShort v ∧ axisShort v ≤ 32767) ∧
    axisShort v = axisShort (max (-1) (min 1 v)) := by
  have hc1 : (-1 : ℚ) ≤ max (-1) (min 1 v) := le_max_left _ _
  have hc2 : max (-1) (min 1 v) ≤ 1 := max_le (by norm_num) (min_le_left _ _)
  have hq1 : (-32767 : ℚ) ≤ max (-1) (min 1 v) * 32767 := by nlinarith
  have hq2 : max (-1) (min 1 v) * 32767 ≤ 32767 := by nlinarith
  constructor
  · unfold axisShort truncQ
    by_cases h0 : (0 : ℚ) ≤ max (-1) (min 1 v) * 32767
    · rw [if_pos h0]
      constructor
      · have : (0 : ℤ) ≤ ⌊max (-1) (min 1 v) * 32767⌋ := by
          exact Int.floor_nonneg.mpr h0
        omega
      · have h32 : ⌊(32767 : ℚ)⌋ = 32767 := by
          rw [show (32767 : ℚ) = ((32767 : ℤ) : ℚ) by norm_num, Int.floor_intCast]
        calc ⌊max (-1) (min 1 v) * 32767⌋ ≤ ⌊(32767 : ℚ)⌋ := Int.floor_le_floor hq2
          _ = 32767 := h32
    · rw [if_neg h0]
      constructor
      · have h32 : ⌈(-32767 : ℚ)⌉ = -32767 := by
          rw [show (-32767 : ℚ) = ((-32767 : ℤ) : ℚ) by norm_num, Int.ceil_intCast]
        calc (-32767 : ℤ) = ⌈(-32767 : ℚ)⌉ := h32.symm
          _ ≤ ⌈max (-1) (min 1 v) * 32767⌉ := Int.ceil_le_ceil hq1
      · have hneg : max (-1) (min 1 v) * 32767 ≤ 0 := le_of_not_le h0
        have : ⌈max (-1) (min 1 v) * 32767⌉ ≤ ⌈(0 : ℚ)⌉ := Int.ceil_le_ceil hneg
        simp only [Int.ceil_zero] at this
        omega
  · unfold axisShort
    congr 2
    rw [min_eq_right hc2, max_eq_right hc1]

/-! ## Claim C2 (corrected): stick axis values are truncated, not rounded -/

/-- Evaluating `_axis_short` at zero. -/
theorem axisShort_zero : axisShort 0 = 0 := by
  unfold axisShort truncQ
  norm_num

/-- C2 (amended): for every key snapshot and profile, each stick axis value
pushed to the device equals `int(clamped * 32767)` — truncation toward zero —
where `clamped` is the raw direction difference in `{-1, 0, 1}` scaled by the
clamped stick magnitude and clamped to `[-1.0, 1.0]`. (The original claim
said the value is obtained by rounding; the counterexample shows rounding
and the code's truncation disagree.) -/
theorem axis_value_is_truncation (pressed : List PKey) (p : PDoc) :
    (computeFrame pressed p).lx =
      truncQ (max (-1) (min 1
        (((b2i (isPressed pressed (fieldKey p "LEFT_STICK_RIGHT")) -
           b2i (isPressed pressed (fieldKey p "LEFT_STICK_LEFT")) : ℤ) : ℚ) *
         max 0 (min 1 (dGetNum p "STICK_MAGNITUDE" 1)))) * 32767) ∧
    (computeFrame pressed p).ly =
      truncQ (max (-1) (min 1
        (((b2i (isPressed pressed (fieldKey p "LEFT_STICK_UP")) -
           b2i (isPressed pressed (fieldKey p "LEFT_STICK_DOWN")) : ℤ) : ℚ) *
         max 0 (min 1 (dGetNum p "STICK_MAGNITUDE" 1)))) * 32767) ∧
    (computeFrame pressed p).rx =
      truncQ (max (-1) (min 1
        (((b2i (isPressed pressed (fieldKey p "RIGHT_STICK_RIGHT")) -
           b2i (isPressed pressed (fieldKey p "RIGHT_STICK_LEFT")) : ℤ) : ℚ) *
         max 0 (min 1 (dGetNum p "STICK_MAGNITUDE" 1)))) * 32767) ∧
    (computeFrame pressed p).ry =
      truncQ (max (-1) (min 1
        (((b2i (isPressed pressed (fieldKey p "RIGHT_STICK_UP")) -
           b2i (isPressed pressed (fieldKey p "RIGHT_STICK_DOWN")) : ℤ) : ℚ) *
         max 0 (min 1 (dGetNum p "STICK_MAGNITUDE" 1)))) * 32767) :=
  ⟨rfl, rfl, rfl, rfl⟩

/-- Profile for the C2 counterexample: `LEFT_STICK_RIGHT` mapped to the
character key `d`, stick magnitude 0.5 (exactly representable as a float),
all other fields at their defaults. -/
def docC2 : PDoc := fun k =>
  if k = "LEFT_STICK_RIGHT" then some (JVal.str "CHAR:d")
  else if k = "STICK_MAGNITUDE" then some (JVal.num (1/2))
  else defaultPDoc k

/-- Key snapshot for the C2 counterexample: only `d` held. -/
def pressedC2 : List PKey := [PKey.ch "d"]

/-- C2 (counterexample): with magnitude 0.5 and only RIGHT held, the clamped
product is 0.5 and `clamped * 32767 = 16383.5`; the code pushes the
truncation 16383, while the claimed `round(clamped * max_magnitude)` is
16384 — so the value pushed to the device is not the rounded value. -/
theorem axis_trunc_ne_round_cex :
    (computeFrame pressedC2 docC2).lx = 16383 ∧
    pyRound (max (-1) (min 1 (((1 - 0 : ℤ) : ℚ) * max 0 (min 1 (1/2)))) * 32767) =
      16384 ∧
    decide ((16383 : ℤ) = 16384) = false := by
  have hfloor : ⌊(32767 : ℚ) / 2⌋ = 16383 := by
    rw [Int.floor_eq_iff]
    constructor <;> norm_num
  have e3 : max (-1 : ℚ) (min 1 (((1 - 0 : ℤ) : ℚ) * max 0 (min 1 (1/2)))) * 32767 =
      32767 / 2 := by norm_num
  refine ⟨?_, ?_, by decide⟩
  · show axisShort (((1 - 0 : ℤ) : ℚ) * max 0 (min 1 (1/2))) = 16383
    unfold axisShort truncQ
    rw [e3, if_pos (by norm_num : (0 : ℚ) ≤ 32767 / 2)]
    exact hfloor
  · unfold pyRound
    rw [e3, hfloor]
    have e4 : (32767 : ℚ) / 2 - ((16383 : ℤ) : ℚ) = 1 / 2 := by norm_num
    rw [e4]
    norm_num

/-! ## Claim C6: opposite direction keys cancel to axis value 0 -/

/-- C6: for every profile and key snapshot in which both opposite direction
keys of a stick axis read as held, the computed value for that axis is
exactly 0 (for any stick magnitude, in particular any nonzero one); one
conjunct per axis of each stick. -/
theorem opposite_keys_cancel (pressed : List PKey) (p : PDoc) :
    (isPressed pressed (fieldKey p "LEFT_STICK_RIGHT") = true →
     isPressed pressed (fieldKey p "LEFT_STICK_LEFT") = true →
     (computeFrame pressed p).lx = 0) ∧
    (isPressed pressed (fieldKey p "LEFT_STICK_UP") = true →
     isPressed pressed (fieldKey p "LEFT_STICK_DOWN") = true →
     (computeFrame pressed p).ly = 0) ∧
    (isPressed pressed (fieldKey p "RIGHT_STICK_RIGHT") = true →
     isPressed pressed (fieldKey p "RIGHT_STICK_LEFT") = true →
     (computeFrame pressed p).rx = 0) ∧
    (isPressed pressed (fieldKey p "RIGHT_STICK_UP") = true →
     isPressed pressed (fieldKey p "RIGHT_STICK_DOWN") = true →
     (computeFrame pressed p).ry = 0) := by
  refine ⟨fun h1 h2 => ?_, fun h1 h2 => ?_, fun h1 h2 => ?_, fun h1 h2 => ?_⟩ <;>
    simp only [computeFrame, h1, h2] <;>
    norm_num [b2i, axisShort_zero]

/-- Profile for the C6 witness: all eight stick directions mapped to
character keys. -/
def docC6 : PDoc := fun k =>
  if k = "LEFT_STICK_RIGHT" then some (JVal.str "CHAR:d")
  else if k = "LEFT_STICK_LEFT" then some (JVal.str "CHAR:a")
  else if k = "LEFT_STICK_UP" then some (JVal.str "CHAR:w")
  else if k = "LEFT_STICK_DOWN" then some (JVal.str "CHAR:s")
  else if k = "RIGHT_STICK_RIGHT" then some (JVal.str "CHAR:l")
  else if k = "RIGHT_STICK_LEFT" then some (JVal.str "CHAR:j")
  else if k = "RIGHT_STICK_UP" then some (JVal.str "CHAR:i")
  else if k = "RIGHT_STICK_DOWN" then some (JVal.str "CHAR:k")
  else defaultPDoc k

/-- Key snapshot for the C6 witness: all eight direction keys held. -/
def pressedC6 : List PKey :=
  [PKey.ch "d", PKey.ch "a", PKey.ch "w", PKey.ch "s",
   PKey.ch "l", PKey.ch "j", PKey.ch "i", PKey.ch "k"]

/-- Witness for C6: with every stick direction key held (default magnitude
1.0), all four axis values are 0. -/
theorem opposite_keys_cancel_witness :
    (computeFrame pressedC6 docC6).lx = 0 ∧
    (computeFrame pressedC6 docC6).ly = 0 ∧
    (computeFrame pressedC6 docC6).rx = 0 ∧
    (computeFrame pressedC6 docC6).ry = 0 :=
  ⟨(opposite_keys_cancel pressedC6 docC6).1 rfl rfl,
   (opposite_keys_cancel pressedC6 docC6).2.1 rfl rfl,
   (opposite_keys_cancel pressedC6 docC6).2.2.1 rfl rfl,
   (opposite_keys_cancel pressedC6 docC6).2.2.2 rfl rfl⟩

/-! ## Claim C8: unmapped controls are never active and never raise -/

/-- C8: `is_pressed` on an unmapped key (`None`) returns false for every key
snapshot; an unmapped field (the empty string) parses to no key; and an
unmapped control contributes the not-active value to the frame: trigger 0,
button released, and axis 0 when both of an axis's direction keys are
unmapped. All these are total computations — no exception path exists in the
model. -/
theorem unmapped_key_inactive :
    (∀ pressed : List PKey, isPressed pressed none = false) ∧
    strToKeyV (JVal.str "") = none ∧
    ∀ (pressed : List PKey) (p : PDoc),
      (p "LT" = some (JVal.str "") → (computeFrame pressed p).lt = 0) ∧
      (p "A" = some (JVal.str "") →
        (computeFrame pressed p).buttons.lookup "A" = some false) ∧
      (p "LEFT_STICK_LEFT" = some (JVal.str "") →
       p "LEFT_STICK_RIGHT" = some (JVal.str "") →
       (computeFrame pressed p).lx = 0) := by
  refine ⟨fun pressed => rfl, rfl, fun pressed p => ⟨fun h => ?_, fun h => ?_, fun h1 h2 => ?_⟩⟩
  · simp [computeFrame, fieldKey, dGet, h, strToKeyV, strToKey, isPressed]
  · simp [computeFrame, xbtnNames, fieldKey, dGet, h, strToKeyV, strToKey,
      isPressed, List.lookup]
  · simp [computeFrame, fieldKey, dGet, h1, h2, strToKeyV, strToKey, isPressed,
      b2i, axisShort_zero]

/-- Witness for C8 on the default profile (every control unmapped) with no
key held. -/
theorem unmapped_key_inactive_witness :
    defaultPDoc "LT" = some (JVal.str "") ∧
    defaultPDoc "A" = some (JVal.str "") ∧
    defaultPDoc "LEFT_STICK_LEFT" = some (JVal.str "") ∧
    defaultPDoc "LEFT_STICK_RIGHT" = some (JVal.str "") ∧
    (computeFrame [] defaultPDoc).lt = 0 ∧
    (computeFrame [] defaultPDoc).buttons.lookup "A" = some false ∧
    (computeFrame [] defaultPDoc).lx = 0 :=
  ⟨rfl, rfl, rfl, rfl,
   (unmapped_key_inactive.2.2 [] defaultPDoc).1 rfl,
   (unmapped_key_inactive.2.2 [] defaultPDoc).2.1 rfl,
   (unmapped_key_inactive.2.2 [] defaultPDoc).2.2 rfl rfl⟩

/-! ## Claim C1 (corrected): cycle exceptions are not caught -/

/-- C1 (amended): an exception raised during a cycle's compute/apply step is
not caught: the loop terminates at once with no warning logged, no later
cycle processed, no device reset and no terminal status — so besides
device-initialization failure and an explicit stop (and the exit combo), an
uncaught per-cycle exception also terminates the loop. Stated for the first
cycle of a run: whatever cycles were still to come, the trace ends at the
startup status and the outcome is the crash. -/
theorem cycle_exception_uncaught (c : CycleEnv) (rest : List CycleEnv)
    (msg : String) (hstop : c.stopSet = false)
    (herr : c.writeError = some msg) :
    run none (c :: rest) =
      ([Event.status "Mapper RUNNING"], Outcome.crashed msg) := by
  rcases Bool.dichotomy (isPressed c.pressed
      (strToKeyV (dGet c.profile "EXIT_KEY_1" (JVal.str "KEY:esc"))) &&
    isPressed c.pressed
      (strToKeyV (dGet c.profile "EXIT_KEY_2" (JVal.str "KEY:backspace")))) with
    hb | hb <;>
  simp [run, runLoop, hstop, herr, exitStep, hb]

/-- The poisoned cycle for C1: stop not requested, empty profile (so the
default exit keys apply), no key held, and a device write that raises. -/
def crashCycle : CycleEnv :=
  { stopSet := false, profile := fun _ => none, pressed := [], now := 0,
    writeError := some "boom" }

/-- A benign follow-up cycle whose stop request would end the loop cleanly —
if the loop ever reached it. -/
def stopCycle : CycleEnv :=
  { stopSet := true, profile := fun _ => none, pressed := [], now := 1/100,
    writeError := none }

/-- C1 (counterexample): a device-write exception on the first cycle ends
the run with outcome `crashed` — not one of the terminations the claim
allows (stop, exit combo, init failure) and not a continuation — and the
trace shows the cycle was not merely skipped: the pending stop cycle was
never processed, and no warning, reset or terminal status was emitted. -/
theorem cycle_exception_crash_cex :
    run none [crashCycle, stopCycle] =
      ([Event.status "Mapper RUNNING"], Outcome.crashed "boom") ∧
    decide (Outcome.crashed "boom" = Outcome.stopped) = false ∧
    decide (Outcome.crashed "boom" = Outcome.exited) = false ∧
    decide (Outcome.crashed "boom" = Outcome.initFailed) = false ∧
    decide (Outcome.crashed "boom" = Outcome.running) = false :=
  ⟨rfl, by decide, by decide, by decide, by decide⟩

/-- Witness for the amended C1 at the concrete poisoned cycle. -/
theorem cycle_exception_uncaught_witness :
    crashCycle.stopSet = false ∧ crashCycle.writeError = some "boom" ∧
    run none [crashCycle] =
      ([Event.status "Mapper RUNNING"], Outcome.crashed "boom") :=
  ⟨rfl, rfl, cycle_exception_uncaught crashCycle [] "boom" rfl rfl⟩

/-! ## Claim C9: initialization failure is fatal before the first cycle -/

/-- C9: if creating the virtual gamepad fails, the run reports the failure
through the status channel and terminates immediately: whatever cycles would
have followed, the whole trace is the single failure status — no frame is
ever computed or applied, the device is never written, and the `Mapper
RUNNING` status is never reached. -/
theorem init_failure_terminates (e : String) (cycles : List CycleEnv) :
    run (some e) cycles =
      ([Event.status ("Gamepad init failed: " ++ e)], Outcome.initFailed) :=
  rfl

/-! ## Claim C3 (corrected): unknown fields are merged, not ignored -/

/-- A lookup in an association list succeeds when the key occurs among the
keys. -/
theorem lookup_isSome_of_mem_keys (l : List (String × JVal)) (k : String)
    (h : k ∈ l.map Prod.fst) : (l.lookup k).isSome = true := by
  induction l with
  | nil => simp at h
  | cons a t ih =>
    obtain ⟨a1, a2⟩ := a
    by_cases hk : k = a1
    · subst hk
      simp [List.lookup]
    · have hmem : k ∈ t.map Prod.fst := by
        simpa [List.map_cons, List.mem_cons, hk] using h
      have hne : (k == a1) = false := beq_eq_false_iff_ne.mpr hk
      simp only [List.lookup, hne]
      exact ih hmem

/-- The document used by the C3 counterexample: a single field whose name is
not a known control/setting name. -/
def junkDoc : PDoc := fun k =>
  if k = "BOGUS" then some (JVal.str "x") else none

/-- C3 (counterexample): loading a document with the unknown field `BOGUS`
over the default profile leaves an entry for `BOGUS` in the in-memory
profile — the claim says the in-memory profile contains no entry for any
unknown field — and the document written on a subsequent save carries that
field too, so the saved document does not contain exactly the known
fields. -/
theorem unknown_field_kept_cex :
    loadProfile defaultPDoc junkDoc "BOGUS" = some (JVal.str "x") ∧
    knownFields.contains "BOGUS" = false ∧
    saveDoc (loadProfile defaultPDoc junkDoc) "BOGUS" = some (JVal.str "x") :=
  ⟨rfl, by decide, rfl⟩

/-- C3 (amended): `load_profile` merges the loaded document over the current
profile: every known field remains present (falling back to its default when
missing from the document), every field of the document — known or unknown —
is taken over verbatim, and fields absent from the document keep their
previous value. Unknown fields are therefore kept, not ignored. -/
theorem load_merges_unknown_fields (data : PDoc) :
    (∀ k, k ∈ knownFields → ((loadProfile defaultPDoc data) k).isSome = true) ∧
    (∀ k v, data k = some v → loadProfile defaultPDoc data k = some v) ∧
    (∀ k, data k = none → loadProfile defaultPDoc data k = defaultPDoc k) := by
  refine ⟨fun k hk => ?_, fun k v h => ?_, fun k h => ?_⟩
  · unfold loadProfile
    cases hd : data k with
    | some v => simp
    | none =>
      simpa [defaultPDoc] using lookup_isSome_of_mem_keys defaultPairs k hk
  · simp [loadProfile, h]
  · simp [loadProfile, h]

/-- Witness for the amended C3 on the `BOGUS` document: the known field `A`
stays present with its default, and the unknown field is taken over. -/
theorem load_merges_unknown_fields_witness :
    ("A" ∈ knownFields ∧ ((loadProfile defaultPDoc junkDoc) "A").isSome = true) ∧
    (junkDoc "BOGUS" = some (JVal.str "x") ∧
      loadProfile defaultPDoc junkDoc "BOGUS" = some (JVal.str "x")) ∧
    (junkDoc "A" = none ∧
      loadProfile defaultPDoc junkDoc "A" = defaultPDoc "A") := by
  have hA : "A" ∈ knownFields := by decide
  exact ⟨⟨hA, (load_merges_unknown_fields junkDoc).1 "A" hA⟩,
    ⟨rfl, (load_merges_unknown_fields junkDoc).2.1 "BOGUS" (JVal.str "x") rfl⟩,
    ⟨rfl, (load_merges_unknown_fields junkDoc).2.2 "A" rfl⟩⟩

/-! ## Claim C7: profile round trip -/

/-- The keys `key_to_str` can actually receive: `None`, a pynput `Key`
(whose name is a `Key` attribute), or a `KeyCode` from `from_vk` /
`from_char`. -/
def wfKey : Option PKey → Bool
  | none => true
  | some (PKey.named n) => validKeyNames.contains n
  | some (PKey.vk _) => true
  | some (PKey.ch _) => true

/-- C7: saving a profile document and loading the result back over any
in-memory profile it covers (in particular over the defaults) reproduces the
document exactly, for all fields — and at the key level every tag variant
round-trips through `key_to_str` / `str_to_key`: `KEY:<name>` for valid key
names, `VK:<int>`, `CHAR:<char>`, and the empty string for an unmapped
control. -/
theorem profile_roundtrip :
    (∀ cur p : PDoc, (∀ k, (cur k).isSome = true → (p k).isSome = true) →
      loadProfile cur (saveDoc p) = p) ∧
    (∀ k : Option PKey, wfKey k = true → strToKey (keyToStr k) = k) := by
  constructor
  · intro cur p hsupp
    funext k
    cases hp : p k with
    | some v => simp [loadProfile, saveDoc, hp]
    | none =>
      simp only [loadProfile, saveDoc, hp]
      cases hc : cur k with
      | none => rfl
      | some w =>
        have hps := hsupp k (by simp [hc])
        rw [hp] at hps
        simp at hps
  · intro k hwf
    rcases k with _ | k
    · rfl
    · rcases k with n | m | s
      · exact strToKey_key n hwf
      · exact strToKey_vk m
      · exact strToKey_char s

/-- Witness for C7: the default profile document round-trips through
save/load, and one concrete key of each tag variant round-trips through the
string form. -/
theorem profile_roundtrip_witness :
    loadProfile defaultPDoc (saveDoc defaultPDoc) = defaultPDoc ∧
    wfKey (some (PKey.named "esc")) = true ∧
    strToKey (keyToStr (some (PKey.named "esc"))) = some (PKey.named "esc") ∧
    strToKey (keyToStr (some (PKey.vk 74))) = some (PKey.vk 74) ∧
    strToKey (keyToStr (some (PKey.ch "j"))) = some (PKey.ch "j") ∧
    strToKey (keyToStr none) = none :=
  ⟨profile_roundtrip.1 defaultPDoc defaultPDoc (fun _ h => h),
   rfl,
   profile_roundtrip.2 (some (PKey.named "esc")) rfl,
   profile_roundtrip.2 (some (PKey.vk 74)) rfl,
   profile_roundtrip.2 (some (PKey.ch "j")) rfl,
   profile_roundtrip.2 none rfl⟩

end CKM
